import Mathlib

/-!
# Verification of the whiteboard-backend server core

Shallow embedding, in Lean 4, of the parts of the Go collaborative-whiteboard
server that the specification's claims are about: the session store
(`internal/user/user_session.go`), the room and its registry
(`internal/room/room.go`, `internal/room/room_manager.go`), the object
validator and sanitizer (`internal/object/object_validator.go`,
`internal/object/object_schema.go`), the client-IP extraction of the two
transport revisions, and the `objectUpdated` message handler.

Go maps with string keys are modelled as association lists
(`List (String × α)`) whose update operation replaces the existing entry;
`time.Time` values are modelled as `Int` nanoseconds; JSON values are
modelled by the inductive type `JValue`.
-/

namespace Whiteboard

/-! ## Association-list helpers (the model of Go string-keyed maps) -/

/-- Lookup of a key, as Go `m[k]` (first matching entry). -/
def lookupA {α : Type} (k : String) : List (String × α) → Option α
  | [] => none
  | (k', v) :: rest => if k' = k then some v else lookupA k rest

/-- Deletion of a key, as Go `delete(m, k)`. -/
def eraseA {α : Type} (k : String) (l : List (String × α)) : List (String × α) :=
  l.filter (fun p => p.1 ≠ k)

/-- Insert-or-replace, as Go `m[k] = v`. -/
def insertA {α : Type} (k : String) (v : α) (l : List (String × α)) : List (String × α) :=
  (k, v) :: eraseA k l

/-! ## Room registry sweep (src/internal/room/room_manager.go, `Manager.Cleanup`) -/

/-- The per-room data sampled by the sweeper: connection count, `LastActive`
and `CreatedAt` (Int nanoseconds, as Go `time.Time`/`time.Duration`). -/
structure RoomMeta where
  connCount : Nat
  lastActive : Int
  createdAt : Int
deriving DecidableEq, Repr

/-- `1 * time.Hour` in nanoseconds. -/
def hourNs : Int := 3600000000000

/-- `24 * time.Hour` in nanoseconds. -/
def dayNs : Int := 86400000000000

/-- The expiry predicate of `Manager.Cleanup`:
`(inactive && empty) || expired` with
`empty := len(room.Connections) == 0`,
`inactive := now.Sub(room.LastActive) > 1*time.Hour`,
`expired := now.Sub(room.CreatedAt) > 24*time.Hour`. -/
def roomExpired (now : Int) (r : RoomMeta) : Bool :=
  (decide (now - r.lastActive > hourNs) && decide (r.connCount = 0))
    || decide (now - r.createdAt > dayNs)

/-- `Manager.Cleanup`: walk all rooms and delete the ones meeting the expiry
predicate, leaving every other entry untouched. -/
def managerCleanup (now : Int) (rooms : List (String × RoomMeta)) :
    List (String × RoomMeta) :=
  rooms.filter (fun p => ! roomExpired now p.2)

/-! ## JSON values

Untrusted payloads (`map[string]interface{}` after `json.Unmarshal`) are
modelled by `JValue`; Go JSON numbers (`float64`) are modelled as `Rat`. -/

inductive JValue where
  | null
  | jbool (b : Bool)
  | num (q : Rat)
  | str (s : String)
  | arr (elems : List JValue)
  | obj (fields : List (String × JValue))
deriving Repr

/-- A decoded JSON object, as Go `map[string]interface{}`. -/
abbrev JMap := List (String × JValue)

/-! ## String sanitization (src/internal/object/object_validator.go) -/

/-- Modelled from the spec: the string sanitizer `bluemonday.StrictPolicy`
used by the validator is third-party library code absent from src/; the spec
says it "strips all tags and scripts". Modelled as a scanner that removes
every `<`…`>` tag region (second argument: currently inside a tag), dropping
the remainder of an unterminated tag. -/
def stripTags : List Char → Bool → List Char
  | [], _ => []
  | c :: cs, true => if c = '>' then stripTags cs false else stripTags cs true
  | c :: cs, false => if c = '<' then stripTags cs true else c :: stripTags cs false

/-- `Policy.Sanitize` on one string (see `stripTags` for the modelling). -/
def sanitizeString (s : String) : String :=
  ⟨stripTags s.data false⟩

/-! ## Recursive value sanitization
(`Validator.sanitizeMap` / `Validator.sanitizeValue`,
src/internal/object/object_validator.go lines 76-110) -/

mutual

/-- `Validator.sanitizeValue`: strings are sanitized, nested maps and arrays
are sanitized recursively, every other value is returned as-is. -/
def sanitizeValue : JValue → JValue
  | .null => .null
  | .jbool b => .jbool b
  | .num q => .num q
  | .str s => .str (sanitizeString s)
  | .arr xs => .arr (sanitizeList xs)
  | .obj fs => .obj (sanitizeMap fs)

/-- The element loop of `sanitizeValue`'s `[]interface{}` case. -/
def sanitizeList : List JValue → List JValue
  | [] => []
  | v :: vs => sanitizeValue v :: sanitizeList vs

/-- `Validator.sanitizeMap`: a new map with every value sanitized. -/
def sanitizeMap : JMap → JMap
  | [] => []
  | (key, value) :: tl => (key, sanitizeValue value) :: sanitizeMap tl

end

/-! ## Object schemas (src/internal/object/object_schema.go)

Each Go schema struct is translated to the list of field constraints its
`validate:"..."` tags declare. The constraint semantics of the third-party
`go-playground/validator` + `json.Unmarshal` pair (which the spec treats as
an assumed library) are modelled from the spec's description: a `required`
field must be present with a value of the declared type and within bounds;
an `omitempty` field, when present, must have the declared type and be
within bounds. -/

inductive FieldSpec where
  | reqNum (key : String) (lo hi : Rat)
  | optNum (key : String) (lo hi : Rat)
  | reqStr (key : String) (maxLen : Nat)
  | optStr (key : String) (maxLen : Nat)
  | optBool (key : String)
  | reqPoints (key : String) (minLen maxLen : Nat)
deriving Repr

/-- Bounds check for one numeric value. -/
def numInRange (lo hi : Rat) : JValue → Bool
  | .num q => decide (lo ≤ q) && decide (q ≤ hi)
  | _ => false

/-- Required numeric field: present, numeric, within bounds. -/
def reqNumCheck (d : JMap) (k : String) (lo hi : Rat) : Bool :=
  match lookupA k d with
  | some v => numInRange lo hi v
  | none => false

/-- Optional numeric field: absent, or numeric within bounds. -/
def optNumCheck (d : JMap) (k : String) (lo hi : Rat) : Bool :=
  match lookupA k d with
  | some v => numInRange lo hi v
  | none => true

/-- Required string field with a length cap. -/
def reqStrCheck (d : JMap) (k : String) (n : Nat) : Bool :=
  match lookupA k d with
  | some (.str s) => decide (s.length ≤ n)
  | some _ => false
  | none => false

/-- Optional string field with a length cap. -/
def optStrCheck (d : JMap) (k : String) (n : Nat) : Bool :=
  match lookupA k d with
  | some (.str s) => decide (s.length ≤ n)
  | some _ => false
  | none => true

/-- Optional boolean field. -/
def optBoolCheck (d : JMap) (k : String) : Bool :=
  match lookupA k d with
  | some (.jbool _) => true
  | some _ => false
  | none => true

/-- One element of a `points` array: the `Point` struct
(`x`,`y` required, in `[-1000000, 1000000]`). -/
def pointOk : JValue → Bool
  | .obj fs => reqNumCheck fs "x" (-1000000) 1000000 && reqNumCheck fs "y" (-1000000) 1000000
  | _ => false

/-- Required points array: present, length within bounds, every entry a point. -/
def reqPointsCheck (d : JMap) (k : String) (lo hi : Nat) : Bool :=
  match lookupA k d with
  | some (.arr xs) =>
      decide (lo ≤ xs.length) && decide (xs.length ≤ hi) && xs.all pointOk
  | some _ => false
  | none => false

/-- Check of one declared field against the data map. -/
def checkField (d : JMap) : FieldSpec → Bool
  | .reqNum k lo hi => reqNumCheck d k lo hi
  | .optNum k lo hi => optNumCheck d k lo hi
  | .reqStr k n => reqStrCheck d k n
  | .optStr k n => optStrCheck d k n
  | .optBool k => optBoolCheck d k
  | .reqPoints k lo hi => reqPointsCheck d k lo hi

/-- `RectangleData`: embedded `LineCoordinates` plus `color`, `width`, `fill`. -/
def rectangleSchema : List FieldSpec :=
  [ .reqNum "x1" (-1000000) 1000000, .reqNum "y1" (-1000000) 1000000,
    .reqNum "x2" (-1000000) 1000000, .reqNum "y2" (-1000000) 1000000,
    .optStr "color" 50, .optNum "width" 0 1000, .optStr "fill" 50 ]

/-- `CircleData`: identical field set to `RectangleData` in this revision. -/
def circleSchema : List FieldSpec := rectangleSchema

/-- `LineData`: `LineCoordinates` plus `color`, `width`. -/
def lineSchema : List FieldSpec :=
  [ .reqNum "x1" (-1000000) 1000000, .reqNum "y1" (-1000000) 1000000,
    .reqNum "x2" (-1000000) 1000000, .reqNum "y2" (-1000000) 1000000,
    .optStr "color" 50, .optNum "width" 0 1000 ]

/-- `StrokeData`: required `points` (2..10000 entries) plus `color`, `width`. -/
def strokeSchema : List FieldSpec :=
  [ .reqPoints "points" 2 10000, .optStr "color" 50, .optNum "width" 0 1000 ]

/-- `BrushData`. -/
def brushSchema : List FieldSpec :=
  [ .reqPoints "points" 2 10000, .optStr "stroke" 50, .optNum "strokeWidth" 0 1000,
    .optStr "fill" 50, .optNum "opacity" 0 1, .optBool "smooth" ]

/-- `TextData`: `Position` plus required `text` and optional styling. -/
def textSchema : List FieldSpec :=
  [ .reqNum "x" (-1000000) 1000000, .reqNum "y" (-1000000) 1000000,
    .reqStr "text" 1000, .optNum "fontSize" 1 500, .optStr "fontFamily" 100,
    .optStr "color" 50, .optBool "bold", .optBool "italic", .optStr "background" 50 ]

/-- `AllowedObjectTypes` map literal from object_schema.go. -/
def allowedObjectTypes : String → Bool
  | "rectangle" => true
  | "circle" => true
  | "line" => true
  | "path" => true
  | "text" => true
  | "stroke" => true
  | _ => false

/-- `GetSchemaForType`: note it handles `"brush"` but not `"path"`, while the
whitelist contains `"path"` but not `"brush"`. -/
def getSchemaForType : String → Option (List FieldSpec)
  | "rectangle" => some rectangleSchema
  | "circle" => some circleSchema
  | "line" => some lineSchema
  | "brush" => some brushSchema
  | "stroke" => some strokeSchema
  | "text" => some textSchema
  | _ => none

/-- `Validator.ValidateAndSanitize`
(src/internal/object/object_validator.go lines 28-57): whitelist check, then
schema lookup, then `mapToStruct` + `validate.Struct` (modelled by
`checkField`, see the section comment), then `sanitizeMap` on the original
data. Error messages are abbreviated from the source's. -/
def validateAndSanitize (objType : String) (data : JMap) : Except String JMap :=
  if allowedObjectTypes objType = false then
    .error ("invalid object type: " ++ objType)
  else
    match getSchemaForType objType with
    | none => .error ("no schema found for object type: " ++ objType)
    | some schema =>
        if schema.all (checkField data) then .ok (sanitizeMap data)
        else .error "validation failed"

/-- Whether an `Except` result is a success. -/
def exceptOk {ε α : Type} : Except ε α → Bool
  | .ok _ => true
  | .error _ => false

/-- The key of a declared field. -/
def fieldKey : FieldSpec → String
  | .reqNum k _ _ => k
  | .optNum k _ _ => k
  | .reqStr k _ => k
  | .optStr k _ => k
  | .optBool k => k
  | .reqPoints k _ _ => k

/-- Keys declared by the schema for a type (empty when no schema exists). -/
def schemaKeys (t : String) : List String :=
  match getSchemaForType t with
  | none => []
  | some schema => schema.map fieldKey

/-! ### The spec's notion of a well-formed schema instance

These predicates transcribe the spec's §4.9 description of each declared
shape ("required numeric fields within coordinate bounds …, color strings ≤
50 chars, text ≤ 1000 chars, point arrays size ∈ [2, 10000]"); they are the
spec-side half of the refinement claim C3, to be compared with the
source-side `validateAndSanitize`. -/

def SpecNumIn (d : JMap) (k : String) (lo hi : Rat) : Prop :=
  ∃ q : Rat, lookupA k d = some (.num q) ∧ lo ≤ q ∧ q ≤ hi

def SpecOptNumIn (d : JMap) (k : String) (lo hi : Rat) : Prop :=
  lookupA k d = none ∨ SpecNumIn d k lo hi

def SpecStrAtMost (d : JMap) (k : String) (n : Nat) : Prop :=
  ∃ s : String, lookupA k d = some (.str s) ∧ s.length ≤ n

def SpecOptStrAtMost (d : JMap) (k : String) (n : Nat) : Prop :=
  lookupA k d = none ∨ SpecStrAtMost d k n

def SpecOptBool (d : JMap) (k : String) : Prop :=
  lookupA k d = none ∨ ∃ b : Bool, lookupA k d = some (.jbool b)

def SpecPoint (v : JValue) : Prop :=
  ∃ fs : JMap, v = .obj fs ∧ SpecNumIn fs "x" (-1000000) 1000000 ∧
    SpecNumIn fs "y" (-1000000) 1000000

def SpecPointsIn (d : JMap) (k : String) (lo hi : Nat) : Prop :=
  ∃ xs : List JValue, lookupA k d = some (.arr xs) ∧ lo ≤ xs.length ∧
    xs.length ≤ hi ∧ ∀ v ∈ xs, SpecPoint v

/-- Spec shape for `rectangle` (and, in this revision, `circle`). -/
def SpecWellFormedRectangle (d : JMap) : Prop :=
  SpecNumIn d "x1" (-1000000) 1000000 ∧ SpecNumIn d "y1" (-1000000) 1000000 ∧
  SpecNumIn d "x2" (-1000000) 1000000 ∧ SpecNumIn d "y2" (-1000000) 1000000 ∧
  SpecOptStrAtMost d "color" 50 ∧ SpecOptNumIn d "width" 0 1000 ∧
  SpecOptStrAtMost d "fill" 50

/-- Spec shape for `line`. -/
def SpecWellFormedLine (d : JMap) : Prop :=
  SpecNumIn d "x1" (-1000000) 1000000 ∧ SpecNumIn d "y1" (-1000000) 1000000 ∧
  SpecNumIn d "x2" (-1000000) 1000000 ∧ SpecNumIn d "y2" (-1000000) 1000000 ∧
  SpecOptStrAtMost d "color" 50 ∧ SpecOptNumIn d "width" 0 1000

/-- Spec shape for `stroke`. -/
def SpecWellFormedStroke (d : JMap) : Prop :=
  SpecPointsIn d "points" 2 10000 ∧ SpecOptStrAtMost d "color" 50 ∧
  SpecOptNumIn d "width" 0 1000

/-- Spec shape for `text`. -/
def SpecWellFormedText (d : JMap) : Prop :=
  SpecNumIn d "x" (-1000000) 1000000 ∧ SpecNumIn d "y" (-1000000) 1000000 ∧
  SpecStrAtMost d "text" 1000 ∧ SpecOptNumIn d "fontSize" 1 500 ∧
  SpecOptStrAtMost d "fontFamily" 100 ∧ SpecOptStrAtMost d "color" 50 ∧
  SpecOptBool d "bold" ∧ SpecOptBool d "italic" ∧ SpecOptStrAtMost d "background" 50

/-! ## Room state (src/internal/room/room.go) -/

/-- `object.Drawing` minus its `id` (which is the map key in the room). -/
structure DrawingObj where
  typ : String
  data : JMap
  userId : String
  zIndex : Int
deriving Repr

/-- The `Room` aggregate: `Connections` (userID → connection handle; the
handle stands for the `*user.User` pointer), `Objects`, `UserColors`, the
room-owned color generator position, `LastActive` and `CreatedAt`. -/
structure RoomState where
  connections : List (String × Nat)
  objects : List (String × DrawingObj)
  userColors : List (String × String)
  colorGen : Nat
  lastActive : Int
  createdAt : Int
deriving Repr

/-- Modelled from the spec: `user.ColorGenerator.NextColor` is repo code
absent from src/ (only its callers are present). The spec's golden-ratio hue
sequence `h_n = frac(n·φ)·360°` in HSL `(h, 0.85, 0.55)` is modelled as an
injective encoding of the hue index `n`; the claims only use that each call
returns the next element of the room-owned sequence. -/
def goldenColorHex (n : Nat) : String :=
  "goldenHue#" ++ toString n

/-- `Room.Join` (lines 25-41): reject when `len(Connections) >= maxRoomSize`,
else insert-or-replace the connection keyed by userID and assign
`UserColors[userID]` from the generator only when unset. (It does not touch
`LastActive`.) -/
def roomJoin (r : RoomState) (uid : String) (conn : Nat) (maxRoomSize : Nat) :
    Except String RoomState :=
  if maxRoomSize ≤ r.connections.length then .error "room is full"
  else if (lookupA uid r.userColors).isNone then
    .ok { r with connections := insertA uid conn r.connections,
                 userColors := insertA uid (goldenColorHex r.colorGen) r.userColors,
                 colorGen := r.colorGen + 1 }
  else
    .ok { r with connections := insertA uid conn r.connections }

/-- `Room.Leave` (lines 44-51): delete the connection and bump `LastActive`. -/
def roomLeave (r : RoomState) (uid : String) (now : Int) : RoomState :=
  { r with connections := eraseA uid r.connections, lastActive := now }

/-- `Room.RemoveConnection` (lines 123-128): delete the connection only. -/
def removeConnection (r : RoomState) (uid : String) : RoomState :=
  { r with connections := eraseA uid r.connections }

/-- `Room.GetObject`. -/
def getObject (r : RoomState) (id : String) : Option DrawingObj :=
  lookupA id r.objects

/-- `Room.UpdateObject` (lines 64-74): replace `data` wholesale and bump
`LastActive` when the id exists; otherwise a no-op returning false. -/
def updateObject (r : RoomState) (id : String) (d : JMap) (now : Int) :
    RoomState × Bool :=
  match lookupA id r.objects with
  | some obj =>
      ({ r with objects := insertA id { obj with data := d } r.objects,
                lastActive := now }, true)
  | none => (r, false)

/-! ## The `objectUpdated` handler (`ObjectHandler.HandleUpdated`,
src/unnamed/part_003 lines 280-324)

The result is `(room state after, broadcast payload if any, error if any)`;
the Go handler returns an error (dropping the frame, no broadcast) or
broadcasts the normalized message. -/

def handleUpdated (r : RoomState) (uid : String) (data : JMap) (now : Int) :
    RoomState × Option JMap × Option String :=
  match lookupA "object" data with
  | some (.obj objectMsg) =>
      (match lookupA "id" objectMsg with
       | some (.str id) =>
          (match lookupA "data" objectMsg with
           | some (.obj objData) =>
              (match lookupA id r.objects with
               | none => (r, none, some ("object not found: " ++ id))
               | some existingObj =>
                  (match validateAndSanitize existingObj.typ objData with
                   | .error e => (r, none, some ("object validation failed: " ++ e))
                   | .ok sanitized =>
                      let r' := (updateObject r id sanitized now).1
                      let objectMsg' :=
                        insertA "id" (.str (sanitizeString id))
                          (insertA "data" (.obj sanitized) objectMsg)
                      let out :=
                        insertA "userId" (.str (sanitizeString uid))
                          (insertA "object" (.obj objectMsg') data)
                      (r', some out, none)))
           | _ => (r, none, some "missing or invalid object data"))
       | _ => (r, none, some "missing object id"))
  | _ => (r, none, some "missing object data")

/-! ## Session store (src/internal/user/user_session.go) -/

/-- `user.UserSession` (fields relevant to the claims; the struct definition
itself is repo code absent from src/, its fields are taken from the spec's
data model and the uses in user_session.go — rate limiters and the cursor
timestamp are omitted as no claim mentions them). -/
structure Session where
  userID : String
  sessionToken : String
  lastSeen : Int
  lastRoom : String
deriving DecidableEq, Repr

/-- `SessionManager`: `sessions: userID → session` and
`tokenToUserID: token → userID`. -/
structure SMState where
  sessions : List (String × Session)
  tokenToUserID : List (String × String)
deriving DecidableEq, Repr

/-- `NewSessionManager`. -/
def smInit : SMState := ⟨[], []⟩

/-- `SessionManager.GetOrCreate` (lines 24-48): return the existing session
(refreshing `LastSeen`) or create one. `GenerateSessionToken` is crypto-random
repo code absent from src/; the token it would generate is passed in as
`freshToken`. -/
def getOrCreate (st : SMState) (userID : String) (now : Int) (freshToken : String) :
    SMState × Session :=
  match lookupA userID st.sessions with
  | some s =>
      let s' := { s with lastSeen := now }
      ({ st with sessions := insertA userID s' st.sessions }, s')
  | none =>
      let s : Session :=
        { userID := userID, sessionToken := freshToken, lastSeen := now, lastRoom := "" }
      ({ sessions := insertA userID s st.sessions,
         tokenToUserID := insertA freshToken userID st.tokenToUserID }, s)

/-- The connection driver's direct field write
`session.SessionToken = authResult.SessionToken`
(src/internal/websocket/websocket.go line 111): it mutates the stored
session through the shared pointer and bypasses the token index. -/
def setSessionToken (st : SMState) (userID tok : String) : SMState :=
  match lookupA userID st.sessions with
  | some s =>
      { st with sessions := insertA userID { s with sessionToken := tok } st.sessions }
  | none => st

/-- `session.LastRoom = roomCode` (websocket.go line 118). -/
def setLastRoom (st : SMState) (userID roomCode : String) : SMState :=
  match lookupA userID st.sessions with
  | some s =>
      { st with sessions := insertA userID { s with lastRoom := roomCode } st.sessions }
  | none => st

/-- `SessionManager.UpdateTokenMapping` (lines 87-92). -/
def updateTokenMapping (st : SMState) (tok userID : String) : SMState :=
  { st with tokenToUserID := insertA tok userID st.tokenToUserID }

/-- `SessionManager.ValidateToken` (lines 51-69): token → userID lookup, then
session existence check, refreshing `LastSeen`; `("", false)` is modelled as
`none`. -/
def validateToken (st : SMState) (tok : String) (now : Int) :
    SMState × Option String :=
  match lookupA tok st.tokenToUserID with
  | none => (st, none)
  | some userID =>
      match lookupA userID st.sessions with
      | none => (st, none)
      | some s =>
          ({ st with sessions := insertA userID { s with lastSeen := now } st.sessions },
           some userID)

/-- `SessionManager.Remove` (lines 137-147): delete the token entry of the
session's current token (when the session exists), then the session. -/
def smRemove (st : SMState) (userID : String) : SMState :=
  { sessions := eraseA userID st.sessions,
    tokenToUserID :=
      match lookupA userID st.sessions with
      | some s => eraseA s.sessionToken st.tokenToUserID
      | none => st.tokenToUserID }

/-- `SessionManager.Cleanup` (lines 150-162): drop sessions idle for more
than an hour together with their current-token entries. -/
def smCleanup (st : SMState) (now : Int) : SMState :=
  { sessions := st.sessions.filter (fun p => ! decide (now - p.2.lastSeen > hourNs)),
    tokenToUserID :=
      st.sessions.foldl
        (fun ts p =>
          if now - p.2.lastSeen > hourNs then eraseA p.2.sessionToken ts else ts)
        st.tokenToUserID }

/-- The connection driver's new-user path
(src/internal/websocket/websocket.go lines 105-118, `IsNewUser` branch):
`GetOrCreate` (which generates its own token `t0`), the direct override of
`SessionToken` to the authenticator's token `tauth`, `UpdateTokenMapping`,
and the `LastRoom` tracking write. -/
def connectNewUser (st : SMState) (userID t0 tauth roomCode : String) (now : Int) :
    SMState :=
  setLastRoom
    (updateTokenMapping (setSessionToken (getOrCreate st userID now t0).1 userID tauth)
      tauth userID)
    userID roomCode

/-- `cleanup` (src/internal/websocket/websocket.go lines 47-55), run via
`defer` on every connection teardown: `Room.Leave` then
`SessionManager.Remove`. -/
def connCleanup (rm : RoomState) (st : SMState) (uid : String) (now : Int) :
    RoomState × SMState :=
  (roomLeave rm uid now, smRemove st uid)

/-! ## Client IP extraction (the two revisions)

`transportGetClientIP` is `GetClientIP` from src/internal/transport/websocket.go
(lines 38-58); `websocketGetClientIP` is `GetClientIP` from
src/internal/websocket/websocket.go (lines 38-45). Absent headers are the
empty string, as Go's `Header.Get`. Go's `strings.TrimSpace` is modelled by
`String.trim`. -/

structure HttpRequest where
  xForwardedFor : String
  xRealIP : String
  remoteAddr : String
deriving DecidableEq, Repr

/-- Drop leading whitespace characters. -/
def dropLeadingSpace : List Char → List Char
  | [] => []
  | c :: cs => if c.isWhitespace then dropLeadingSpace cs else c :: cs

/-- `strings.TrimSpace`: remove leading and trailing whitespace. -/
def trimSpace (s : String) : String :=
  ⟨dropLeadingSpace ((dropLeadingSpace s.data.reverse).reverse)⟩

/-- Index of the first occurrence of a character (`strings.Index`). -/
def firstIdxOf (c : Char) : List Char → Option Nat
  | [] => none
  | x :: xs => if x = c then some 0 else (firstIdxOf c xs).map (· + 1)

/-- Index of the last occurrence of a character (`strings.LastIndex`). -/
def lastIdxOf (c : Char) : List Char → Option Nat
  | [] => none
  | x :: xs =>
      match lastIdxOf c xs with
      | some i => some (i + 1)
      | none => if x = c then some 0 else none

/-- `ip[:strings.LastIndex(ip, ":")]`, or `ip` unchanged when there is no
colon: strip the port suffix from a peer address. -/
def stripPort (s : String) : String :=
  match lastIdxOf ':' s.data with
  | some i => ⟨s.data.take i⟩
  | none => s

/-- First hop of an `X-Forwarded-For` value: the trimmed prefix before the
first comma, or the whole value trimmed. -/
def firstHop (s : String) : String :=
  match firstIdxOf ',' s.data with
  | some i => trimSpace ⟨s.data.take i⟩
  | none => trimSpace s

/-- `GetClientIP`, transport revision: prefer `X-Forwarded-For`'s first hop,
then `X-Real-IP`, else `RemoteAddr` with the port stripped. -/
def transportGetClientIP (r : HttpRequest) : String :=
  if r.xForwardedFor ≠ "" then firstHop r.xForwardedFor
  else if r.xRealIP ≠ "" then trimSpace r.xRealIP
  else stripPort r.remoteAddr

/-- `GetClientIP`, websocket revision: "Use RemoteAddr only - cannot be
spoofed by client". -/
def websocketGetClientIP (r : HttpRequest) : String :=
  stripPort r.remoteAddr

/-! # Theorems -/

/-! ## Association-list lemmas -/

theorem lookupA_eraseA_self {α : Type} (k : String) (l : List (String × α)) :
    lookupA k (eraseA k l) = none := by
  induction l with
  | nil => rfl
  | cons hd tl ih =>
    by_cases h : hd.1 = k
    · simpa [eraseA, h] using ih
    · simpa [eraseA, lookupA, h] using ih

theorem lookupA_eraseA_ne {α : Type} {k k' : String} (h : k' ≠ k) (l : List (String × α)) :
    lookupA k' (eraseA k l) = lookupA k' l := by
  induction l with
  | nil => rfl
  | cons hd tl ih =>
    by_cases hk : hd.1 = k
    · have hne : ¬ hd.1 = k' := by rw [hk]; exact fun hc => h hc.symm
      simp only [eraseA] at ih ⊢
      rw [List.filter_cons_of_neg (by simp [hk])]
      rw [show lookupA k' (hd :: tl) = lookupA k' tl by simp [lookupA, hne]]
      exact ih
    · simp only [eraseA] at ih ⊢
      rw [List.filter_cons_of_pos (by simp [hk])]
      by_cases hk' : hd.1 = k'
      · simp [lookupA, hk']
      · simpa [lookupA, hk'] using ih

theorem lookupA_insertA_self {α : Type} (k : String) (v : α) (l : List (String × α)) :
    lookupA k (insertA k v l) = some v := by
  simp [insertA, lookupA]

theorem lookupA_insertA_ne {α : Type} {k k' : String} (h : k' ≠ k) (v : α)
    (l : List (String × α)) :
    lookupA k' (insertA k v l) = lookupA k' l := by
  simp only [insertA, lookupA, if_neg (fun hc : k = k' => h hc.symm)]
  exact lookupA_eraseA_ne h l

/-! ## Sanitizer lemmas -/

theorem stripTags_not_mem_lt (cs : List Char) : ∀ b : Bool, '<' ∉ stripTags cs b := by
  induction cs with
  | nil => intro b; cases b <;> simp [stripTags]
  | cons c cs ih =>
    intro b
    cases b with
    | true =>
      by_cases h : c = '>'
      · simpa [stripTags, h] using ih false
      · simpa [stripTags, h] using ih true
    | false =>
      by_cases h : c = '<'
      · simpa [stripTags, h] using ih true
      · simp only [stripTags, if_neg h, List.mem_cons]
        rintro (h1 | h2)
        · exact h h1.symm
        · exact ih false h2

theorem stripTags_id_of_no_lt (cs : List Char) (h : ∀ c ∈ cs, c ≠ '<') :
    stripTags cs false = cs := by
  induction cs with
  | nil => rfl
  | cons c cs ih =>
    have hc : ¬ c = '<' := h c (List.mem_cons_self c cs)
    simp only [stripTags, if_neg hc]
    rw [ih (fun x hx => h x (List.mem_cons_of_mem c hx))]

theorem sanitizeString_idem (s : String) :
    sanitizeString (sanitizeString s) = sanitizeString s := by
  show (⟨stripTags (stripTags s.data false) false⟩ : String) = ⟨stripTags s.data false⟩
  exact congrArg String.mk
    (stripTags_id_of_no_lt _ (fun c hc heq => stripTags_not_mem_lt s.data false (heq ▸ hc)))

mutual

theorem sanitizeValue_idem : (v : JValue) → sanitizeValue (sanitizeValue v) = sanitizeValue v
  | .null => rfl
  | .jbool _ => rfl
  | .num _ => rfl
  | .str s => by simp [sanitizeValue, sanitizeString_idem]
  | .arr xs => by simp [sanitizeValue, sanitizeList_idem xs]
  | .obj fs => by simp [sanitizeValue, sanitizeMap_idem fs]

theorem sanitizeList_idem : (l : List JValue) → sanitizeList (sanitizeList l) = sanitizeList l
  | [] => rfl
  | v :: vs => by simp [sanitizeList, sanitizeValue_idem v, sanitizeList_idem vs]

theorem sanitizeMap_idem : (m : JMap) → sanitizeMap (sanitizeMap m) = sanitizeMap m
  | [] => rfl
  | (key, value) :: tl => by simp [sanitizeMap, sanitizeValue_idem value, sanitizeMap_idem tl]

end

/-! ## Bridging lemmas: executable checks vs. the spec's predicates -/

theorem reqNumCheck_iff (d : JMap) (k : String) (lo hi : Rat) :
    reqNumCheck d k lo hi = true ↔ SpecNumIn d k lo hi := by
  unfold reqNumCheck SpecNumIn
  cases h : lookupA k d with
  | none => simp
  | some v => cases v <;> simp [numInRange]

theorem optNumCheck_iff (d : JMap) (k : String) (lo hi : Rat) :
    optNumCheck d k lo hi = true ↔ SpecOptNumIn d k lo hi := by
  unfold optNumCheck SpecOptNumIn SpecNumIn
  cases h : lookupA k d with
  | none => simp
  | some v => cases v <;> simp [numInRange]

theorem reqStrCheck_iff (d : JMap) (k : String) (n : Nat) :
    reqStrCheck d k n = true ↔ SpecStrAtMost d k n := by
  unfold reqStrCheck SpecStrAtMost
  cases h : lookupA k d with
  | none => simp
  | some v => cases v <;> simp

theorem optStrCheck_iff (d : JMap) (k : String) (n : Nat) :
    optStrCheck d k n = true ↔ SpecOptStrAtMost d k n := by
  unfold optStrCheck SpecOptStrAtMost SpecStrAtMost
  cases h : lookupA k d with
  | none => simp
  | some v => cases v <;> simp

theorem optBoolCheck_iff (d : JMap) (k : String) :
    optBoolCheck d k = true ↔ SpecOptBool d k := by
  unfold optBoolCheck SpecOptBool
  cases h : lookupA k d with
  | none => simp
  | some v => cases v <;> simp

theorem pointOk_iff (v : JValue) : pointOk v = true ↔ SpecPoint v := by
  cases v <;> simp only [pointOk, SpecPoint, Bool.and_eq_true, reqNumCheck_iff] <;> simp

theorem reqPointsCheck_iff (d : JMap) (k : String) (lo hi : Nat) :
    reqPointsCheck d k lo hi = true ↔ SpecPointsIn d k lo hi := by
  unfold reqPointsCheck SpecPointsIn
  cases h : lookupA k d with
  | none => simp
  | some v =>
    cases v <;> simp [List.all_eq_true, pointOk_iff, and_assoc]

/-! ## Validator lemmas -/

theorem vas_ok_iff_all {t : String} {schema : List FieldSpec} (d : JMap)
    (hA : allowedObjectTypes t = true) (hS : getSchemaForType t = some schema) :
    (exceptOk (validateAndSanitize t d) = true ↔ schema.all (checkField d) = true) := by
  unfold validateAndSanitize
  rw [if_neg (by simp [hA]), hS]
  by_cases h : schema.all (checkField d) <;> simp [h, exceptOk]

theorem vas_rectangle_iff (d : JMap) :
    exceptOk (validateAndSanitize "rectangle" d) = true ↔ SpecWellFormedRectangle d := by
  rw [vas_ok_iff_all d (t := "rectangle") rfl rfl]
  simp [rectangleSchema, checkField, reqNumCheck_iff, optNumCheck_iff, optStrCheck_iff,
    SpecWellFormedRectangle, and_assoc]

theorem vas_circle_iff (d : JMap) :
    exceptOk (validateAndSanitize "circle" d) = true ↔ SpecWellFormedRectangle d := by
  rw [vas_ok_iff_all d (t := "circle") rfl rfl]
  simp [circleSchema, rectangleSchema, checkField, reqNumCheck_iff, optNumCheck_iff,
    optStrCheck_iff, SpecWellFormedRectangle, and_assoc]

theorem vas_line_iff (d : JMap) :
    exceptOk (validateAndSanitize "line" d) = true ↔ SpecWellFormedLine d := by
  rw [vas_ok_iff_all d (t := "line") rfl rfl]
  simp [lineSchema, checkField, reqNumCheck_iff, optNumCheck_iff, optStrCheck_iff,
    SpecWellFormedLine, and_assoc]

theorem vas_stroke_iff (d : JMap) :
    exceptOk (validateAndSanitize "stroke" d) = true ↔ SpecWellFormedStroke d := by
  rw [vas_ok_iff_all d (t := "stroke") rfl rfl]
  simp [strokeSchema, checkField, reqPointsCheck_iff, optNumCheck_iff, optStrCheck_iff,
    SpecWellFormedStroke, and_assoc]

theorem vas_text_iff (d : JMap) :
    exceptOk (validateAndSanitize "text" d) = true ↔ SpecWellFormedText d := by
  rw [vas_ok_iff_all d (t := "text") rfl rfl]
  simp [textSchema, checkField, reqNumCheck_iff, optNumCheck_iff, optStrCheck_iff,
    reqStrCheck_iff, optBoolCheck_iff, SpecWellFormedText, and_assoc]

theorem vas_not_allowed {t : String} (d : JMap) (hA : allowedObjectTypes t = false) :
    validateAndSanitize t d = .error ("invalid object type: " ++ t) := by
  unfold validateAndSanitize
  rw [if_pos hA]

theorem vas_ok_eq {t : String} {d out : JMap} (h : validateAndSanitize t d = .ok out) :
    out = sanitizeMap d := by
  unfold validateAndSanitize at h
  split at h
  · cases h
  · split at h
    · cases h
    · split at h
      · injection h with h'; exact h'.symm
      · cases h

theorem sanitizeMap_keys (m : JMap) :
    (sanitizeMap m).map Prod.fst = m.map Prod.fst := by
  induction m with
  | nil => rfl
  | cons hd tl ih => cases hd; simp [sanitizeMap, ih]

theorem sanitizeList_length (l : List JValue) :
    (sanitizeList l).length = l.length := by
  induction l with
  | nil => rfl
  | cons v vs ih => simp [sanitizeList, ih]

theorem checkField_congr {d d' : JMap} (f : FieldSpec)
    (h : lookupA (fieldKey f) d = lookupA (fieldKey f) d') :
    checkField d f = checkField d' f := by
  cases f with
  | reqNum k lo hi =>
    simp only [fieldKey] at h; simp only [checkField, reqNumCheck, h]
  | optNum k lo hi =>
    simp only [fieldKey] at h; simp only [checkField, optNumCheck, h]
  | reqStr k n =>
    simp only [fieldKey] at h; simp only [checkField, reqStrCheck, h]
  | optStr k n =>
    simp only [fieldKey] at h; simp only [checkField, optStrCheck, h]
  | optBool k =>
    simp only [fieldKey] at h; simp only [checkField, optBoolCheck, h]
  | reqPoints k lo hi =>
    simp only [fieldKey] at h; simp only [checkField, reqPointsCheck, h]

theorem all_congr_of_mem {α : Type} {xs : List α} {f g : α → Bool}
    (hfg : ∀ x ∈ xs, f x = g x) : xs.all f = xs.all g := by
  induction xs with
  | nil => rfl
  | cons y ys ih =>
    rw [List.all_cons, List.all_cons, hfg y (List.mem_cons_self y ys),
      ih (fun x hx => hfg x (List.mem_cons_of_mem y hx))]

theorem vas_ok_congr (t : String) {d d' : JMap}
    (h : ∀ k ∈ schemaKeys t, lookupA k d = lookupA k d') :
    exceptOk (validateAndSanitize t d) = exceptOk (validateAndSanitize t d') := by
  unfold validateAndSanitize
  by_cases hA : allowedObjectTypes t = false
  · rw [if_pos hA, if_pos hA]
  · rw [if_neg hA, if_neg hA]
    cases hS : getSchemaForType t with
    | none => rfl
    | some schema =>
      have hall : schema.all (checkField d) = schema.all (checkField d') := by
        refine all_congr_of_mem (fun f hf => checkField_congr f (h _ ?_))
        rw [show schemaKeys t = schema.map fieldKey by simp [schemaKeys, hS]]
        exact List.mem_map_of_mem fieldKey hf
      show exceptOk (if schema.all (checkField d) = true then Except.ok (sanitizeMap d)
          else Except.error "validation failed")
        = exceptOk (if schema.all (checkField d') = true then Except.ok (sanitizeMap d')
          else Except.error "validation failed")
      rw [hall]
      split <;> rfl

/-! # Claim theorems -/

/-- Claim C1 (code bug): the claim says teardown performs `Room.Leave` but
does not remove the session, so `ValidateToken` with the user's token still
returns the same userID after a natural disconnect. The code's `cleanup`
(websocket.go lines 47-55) calls `sessionMgr.Remove(u.ID)` on every
teardown: evaluating the embedded code on a new-user connection followed by
teardown shows the token validates before teardown and no longer validates
after it (the session store is emptied), contradicting the claim. -/
theorem teardown_removes_session_c1 :
    (validateToken (connectNewUser smInit "u1" "t0" "t1" "r1" 0) "t1" 10).2 = some "u1" ∧
    (connCleanup ⟨[("u1", 7)], [], [], 0, 0, 0⟩
        (connectNewUser smInit "u1" "t0" "t1" "r1" 0) "u1" 20).1.connections = [] ∧
    (connCleanup ⟨[("u1", 7)], [], [], 0, 0, 0⟩
        (connectNewUser smInit "u1" "t0" "t1" "r1" 0) "u1" 20).2.sessions = [] ∧
    (validateToken
        (connCleanup ⟨[("u1", 7)], [], [], 0, 0, 0⟩
          (connectNewUser smInit "u1" "t0" "t1" "r1" 0) "u1" 20).2 "t1" 30).2 = none :=
  ⟨rfl, rfl, rfl, rfl⟩

/-- Claim C2 (code bug): the claim says the token index is the exact inverse
of the session index in every reachable state and that removal removes both
entries. Evaluating the embedded new-user connection flow (GetOrCreate with
its internally generated token "t0", then the driver's direct
`session.SessionToken = "t1"` override and `UpdateTokenMapping`): the stale
entry `tokenToUserID["t0"] = "u1"` survives while the stored session's token
is "t1", and after `Remove("u1")` the "t0" entry still dangles with no
session present at all. -/
theorem token_index_stale_after_override_c2 :
    lookupA "t0" (connectNewUser smInit "u1" "t0" "t1" "r1" 0).tokenToUserID = some "u1" ∧
    (lookupA "u1" (connectNewUser smInit "u1" "t0" "t1" "r1" 0).sessions).map
        Session.sessionToken = some "t1" ∧
    ("t0" : String) ≠ "t1" ∧
    lookupA "t0" (smRemove (connectNewUser smInit "u1" "t0" "t1" "r1" 0) "u1").tokenToUserID
      = some "u1" ∧
    lookupA "u1" (smRemove (connectNewUser smInit "u1" "t0" "t1" "r1" 0) "u1").sessions
      = none :=
  ⟨rfl, rfl, by decide, rfl, rfl⟩

/-- Claim C3 counterexample: the type "path" is in the allowed whitelist, yet
`ValidateAndSanitize` returns an error on every `path` payload (here the
empty data map, which has no missing, out-of-range or oversized declared
field since `GetSchemaForType "path"` declares nothing), contradicting
"returns an error exactly when the type is not whitelisted or a field is
missing, out of range, or oversized". -/
theorem validator_path_rejected_c3_cex :
    allowedObjectTypes "path" = true ∧
    validateAndSanitize "path" [] = .error "no schema found for object type: path" :=
  ⟨rfl, rfl⟩

/-- Claim C3 (amended): for every whitelisted type that also has a schema
(`rectangle`, `circle`, `line`, `stroke`, `text`), `ValidateAndSanitize`
succeeds exactly on the well-formed instances of that type's declared shape
and returns a sanitized map; non-whitelisted types always error. The
whitelisted type `path`, however, has no schema and is always rejected. -/
theorem validator_schema_instances_c3 :
    (∀ d, exceptOk (validateAndSanitize "rectangle" d) = true ↔ SpecWellFormedRectangle d) ∧
    (∀ d, exceptOk (validateAndSanitize "circle" d) = true ↔ SpecWellFormedRectangle d) ∧
    (∀ d, exceptOk (validateAndSanitize "line" d) = true ↔ SpecWellFormedLine d) ∧
    (∀ d, exceptOk (validateAndSanitize "stroke" d) = true ↔ SpecWellFormedStroke d) ∧
    (∀ d, exceptOk (validateAndSanitize "text" d) = true ↔ SpecWellFormedText d) ∧
    (∀ (t : String) (d : JMap), allowedObjectTypes t = false →
      validateAndSanitize t d = .error ("invalid object type: " ++ t)) ∧
    (allowedObjectTypes "path" = true ∧
      ∀ d, validateAndSanitize "path" d = .error "no schema found for object type: path") :=
  ⟨vas_rectangle_iff, vas_circle_iff, vas_line_iff, vas_stroke_iff, vas_text_iff,
    fun _ d hA => vas_not_allowed d hA, rfl, fun _ => rfl⟩

/-- Claim C3 witness: the rejection branch applied at the non-whitelisted
type "ellipse", and the acceptance direction at a concrete well-formed
rectangle instance. -/
theorem validator_schema_instances_c3_witness :
    validateAndSanitize "ellipse" [] = .error "invalid object type: ellipse" ∧
    SpecWellFormedRectangle
      [("x1", JValue.num 0), ("y1", JValue.num 0),
       ("x2", JValue.num 10), ("y2", JValue.num 10)] :=
  ⟨validator_schema_instances_c3.2.2.2.2.2.1 "ellipse" [] rfl,
   (validator_schema_instances_c3.1 _).mp rfl⟩

/-- Claim C4 counterexample: an `objectUpdated` for id "o1" in a room that
has no object "o1": the handler leaves the room unchanged but returns an
object-not-found error and broadcasts nothing (second component `none`),
contradicting "the normalized update message … is still broadcast". -/
theorem update_unknown_id_not_broadcast_c4_cex :
    handleUpdated ⟨[("u1", 1), ("u2", 2)], [], [], 0, 0, 0⟩ "u1"
        [("type", .str "objectUpdated"),
         ("object", .obj [("id", .str "o1"), ("data", .obj [])])] 99
      = (⟨[("u1", 1), ("u2", 2)], [], [], 0, 0, 0⟩, none, some "object not found: o1") :=
  rfl

/-- Claim C4 (amended): for every `objectUpdated` message whose object id is
not present in the room, `ObjectHandler.HandleUpdated` leaves the room's
object map (and the whole room state) unchanged, broadcasts nothing, and
returns an object-not-found error — the frame is dropped, not relayed. -/
theorem update_unknown_id_dropped_c4 :
    ∀ (r : RoomState) (uid : String) (data om od : JMap) (id : String) (now : Int),
      lookupA "object" data = some (.obj om) →
      lookupA "id" om = some (.str id) →
      lookupA "data" om = some (.obj od) →
      lookupA id r.objects = none →
      handleUpdated r uid data now = (r, none, some ("object not found: " ++ id)) := by
  intro r uid data om od id now h1 h2 h3 h4
  simp only [handleUpdated, h1, h2, h3, h4]

/-- Claim C4 witness: the amended theorem applied at a concrete room holding
only object "o2" and an update for the absent id "o1". -/
theorem update_unknown_id_dropped_c4_witness :
    handleUpdated ⟨[], [("o2", ⟨"rectangle", [], "u0", 0⟩)], [], 0, 0, 0⟩ "u9"
        [("object", .obj [("id", .str "o1"), ("data", .obj [])])] 5
      = (⟨[], [("o2", ⟨"rectangle", [], "u0", 0⟩)], [], 0, 0, 0⟩, none,
         some ("object not found: " ++ "o1")) :=
  update_unknown_id_dropped_c4 _ "u9" _ _ [] "o1" 5 rfl rfl rfl rfl

/-- Claim C5 counterexample: a successful `Room.Join` leaves `LastActive`
exactly as it was (here the stale value 12345), refuting the clause
"updates lastActive": the Go method never writes `LastActive` at all. -/
theorem room_join_lastActive_unchanged_c5_cex :
    roomJoin ⟨[], [], [], 0, 12345, 678⟩ "u1" 7 10
      = .ok ⟨[("u1", 7)], [], [("u1", goldenColorHex 0)], 1, 12345, 678⟩ :=
  rfl

/-- Claim C5 (amended): `Room.Join` returns the room-is-full error and
changes nothing when the room already holds `maxRoomSize` connections (a
join that brings the count to exactly `maxRoomSize` succeeds, the next one
fails); otherwise it inserts or replaces the connection entry keyed by
userID and assigns `userColors[userID]` from the color generator only if
that user has no color in the room yet — but it leaves `lastActive`
(and `createdAt`, and the objects) unchanged. -/
theorem room_join_behavior_c5 :
    (∀ (r : RoomState) (uid : String) (conn maxRoomSize : Nat),
      maxRoomSize ≤ r.connections.length →
        roomJoin r uid conn maxRoomSize = .error "room is full") ∧
    (∀ (r : RoomState) (uid : String) (conn maxRoomSize : Nat),
      r.connections.length < maxRoomSize →
      ∃ r', roomJoin r uid conn maxRoomSize = .ok r' ∧
        lookupA uid r'.connections = some conn ∧
        (∀ k, k ≠ uid → lookupA k r'.connections = lookupA k r.connections) ∧
        r'.objects = r.objects ∧
        r'.lastActive = r.lastActive ∧
        r'.createdAt = r.createdAt ∧
        (lookupA uid r.userColors = none →
          lookupA uid r'.userColors = some (goldenColorHex r.colorGen) ∧
          r'.colorGen = r.colorGen + 1) ∧
        (∀ col, lookupA uid r.userColors = some col →
          r'.userColors = r.userColors ∧ r'.colorGen = r.colorGen ∧
          lookupA uid r'.userColors = some col) ∧
        (∀ k, k ≠ uid → lookupA k r'.userColors = lookupA k r.userColors)) := by
  constructor
  · intro r uid conn maxRoomSize h
    unfold roomJoin
    rw [if_pos h]
  · intro r uid conn maxRoomSize h
    have hn : ¬ maxRoomSize ≤ r.connections.length := by omega
    unfold roomJoin
    rw [if_neg hn]
    by_cases hc : lookupA uid r.userColors = none
    · rw [if_pos (by simp [hc])]
      refine ⟨_, rfl, lookupA_insertA_self _ _ _, fun k hk => lookupA_insertA_ne hk _ _,
        rfl, rfl, rfl, fun _ => ⟨lookupA_insertA_self _ _ _, rfl⟩,
        fun col hcol => by simp [hc] at hcol, fun k hk => lookupA_insertA_ne hk _ _⟩
    · rw [if_neg (by simp [Option.isNone_iff_eq_none, hc])]
      exact ⟨_, rfl, lookupA_insertA_self _ _ _, fun k hk => lookupA_insertA_ne hk _ _,
        rfl, rfl, rfl, fun h0 => absurd h0 hc,
        fun col hcol => ⟨rfl, rfl, hcol⟩, fun k _ => rfl⟩

/-- Claim C5 witness: joining a 2-person room with `maxRoomSize = 2` fails
(room already at the cap), while joining a 1-person room with the same cap
succeeds and brings the count to exactly the cap. -/
theorem room_join_behavior_c5_witness :
    roomJoin ⟨[("a", 1), ("b", 2)], [], [], 2, 0, 0⟩ "c" 3 2 = .error "room is full" ∧
    ∃ r', roomJoin ⟨[("a", 1)], [], [("a", "col0")], 1, 0, 0⟩ "b" 2 2 = .ok r' ∧
      lookupA "b" r'.connections = some 2 := by
  constructor
  · exact room_join_behavior_c5.1 _ "c" 3 2 (by decide)
  · obtain ⟨r', h1, h2, -⟩ :=
      room_join_behavior_c5.2 ⟨[("a", 1)], [], [("a", "col0")], 1, 0, 0⟩ "b" 2 2 (by decide)
    exact ⟨r', h1, h2⟩

/-- Claim C6 counterexample: on a request carrying
`X-Forwarded-For: 1.2.3.4` with peer address `5.6.7.8:99`, the transport
revision's `GetClientIP` returns "1.2.3.4" while the websocket revision's
returns "5.6.7.8" — the two implementations do not agree on every request. -/
theorem client_ip_disagree_c6_cex :
    transportGetClientIP ⟨"1.2.3.4", "", "5.6.7.8:99"⟩ = "1.2.3.4" ∧
    websocketGetClientIP ⟨"1.2.3.4", "", "5.6.7.8:99"⟩ = "5.6.7.8" ∧
    ("1.2.3.4" : String) ≠ "5.6.7.8" :=
  ⟨by decide, by decide, by decide⟩

/-- Claim C6 (amended): the transport revision's `GetClientIP` implements
the header chain (first hop of `X-Forwarded-For` when present, else
`X-Real-IP`, else peer address with port stripped), while the websocket
revision's `GetClientIP` deliberately uses only the peer remote address with
its port stripped; the two agree whenever neither forwarding header is
present. -/
theorem client_ip_revisions_c6 :
    (∀ r : HttpRequest, websocketGetClientIP r = stripPort r.remoteAddr) ∧
    (∀ r : HttpRequest, r.xForwardedFor ≠ "" →
      transportGetClientIP r = firstHop r.xForwardedFor) ∧
    (∀ r : HttpRequest, r.xForwardedFor = "" → r.xRealIP ≠ "" →
      transportGetClientIP r = trimSpace r.xRealIP) ∧
    (∀ r : HttpRequest, r.xForwardedFor = "" → r.xRealIP = "" →
      transportGetClientIP r = websocketGetClientIP r) := by
  refine ⟨fun r => rfl, fun r h => ?_, fun r h1 h2 => ?_, fun r h1 h2 => ?_⟩
  · unfold transportGetClientIP
    rw [if_pos h]
  · unfold transportGetClientIP
    rw [if_neg (by simp [h1]), if_pos h2]
  · unfold transportGetClientIP websocketGetClientIP
    rw [if_neg (by simp [h1]), if_neg (by simp [h2])]

/-- Claim C6 witness: the three branches of the amended theorem applied at
concrete requests. -/
theorem client_ip_revisions_c6_witness :
    transportGetClientIP ⟨"9.9.9.9, 8.8.8.8", "", "1.1.1.1:80"⟩ = firstHop "9.9.9.9, 8.8.8.8" ∧
    transportGetClientIP ⟨"", "7.7.7.7", "1.1.1.1:80"⟩ = trimSpace "7.7.7.7" ∧
    transportGetClientIP ⟨"", "", "1.1.1.1:80"⟩ = websocketGetClientIP ⟨"", "", "1.1.1.1:80"⟩ :=
  ⟨client_ip_revisions_c6.2.1 _ (by decide),
   client_ip_revisions_c6.2.2.1 _ rfl (by decide),
   client_ip_revisions_c6.2.2.2 _ rfl rfl⟩

/-- Claim C7: the registry sweep removes a room exactly when
`(now − lastActive > 1h ∧ empty) ∨ (now − createdAt > 24h)`, leaving every
other entry in the registry unchanged; in particular an empty room whose
`lastActive` is strictly more than one hour old is deleted and one at
exactly one hour is kept. -/
theorem room_sweep_expiry_c7 :
    (∀ (rooms : List (String × RoomMeta)) (now : Int) (c : String) (r : RoomMeta),
      (c, r) ∈ managerCleanup now rooms ↔ ((c, r) ∈ rooms ∧ roomExpired now r = false)) ∧
    (∀ (now : Int) (r : RoomMeta),
      roomExpired now r = true ↔
        ((now - r.lastActive > hourNs ∧ r.connCount = 0) ∨ now - r.createdAt > dayNs)) ∧
    managerCleanup (hourNs + 1) [("r1", ⟨0, 0, 0⟩)] = [] ∧
    managerCleanup hourNs [("r2", ⟨0, 0, 0⟩)] = [("r2", ⟨0, 0, 0⟩)] := by
  refine ⟨?_, ?_, rfl, rfl⟩
  · intro rooms now c r
    simp [managerCleanup, List.mem_filter]
  · intro now r
    simp [roomExpired, Bool.or_eq_true, Bool.and_eq_true, decide_eq_true_eq]

/-- Claim C8: string sanitization is idempotent, and hence so is the
recursive sanitization of values and of whole object data maps. -/
theorem sanitize_idempotent_c8 :
    (∀ s : String, sanitizeString (sanitizeString s) = sanitizeString s) ∧
    (∀ v : JValue, sanitizeValue (sanitizeValue v) = sanitizeValue v) ∧
    (∀ m : JMap, sanitizeMap (sanitizeMap m) = sanitizeMap m) :=
  ⟨sanitizeString_idem, sanitizeValue_idem, sanitizeMap_idem⟩

/-- Claim C9: when `ValidateAndSanitize` succeeds its result is exactly
`sanitizeMap data`: the key list is preserved at every nesting level
(top-level keys are preserved, and objects/arrays sanitize pointwise and
recursively), strings are replaced by their sanitized form, non-string
atoms are unchanged; and keys outside the declared schema are never
validated — the validation outcome depends only on the schema keys' values. -/
theorem sanitize_shape_preserving_c9 :
    (∀ (t : String) (d out : JMap), validateAndSanitize t d = .ok out → out = sanitizeMap d) ∧
    (∀ m : JMap, (sanitizeMap m).map Prod.fst = m.map Prod.fst) ∧
    (∀ fs : JMap, sanitizeValue (.obj fs) = .obj (sanitizeMap fs)) ∧
    (∀ xs : List JValue, sanitizeValue (.arr xs) = .arr (sanitizeList xs) ∧
      (sanitizeList xs).length = xs.length) ∧
    (∀ s : String, sanitizeValue (.str s) = .str (sanitizeString s)) ∧
    (∀ q : Rat, sanitizeValue (.num q) = .num q) ∧
    (∀ b : Bool, sanitizeValue (.jbool b) = .jbool b) ∧
    sanitizeValue .null = .null ∧
    (∀ (t : String) (d d' : JMap),
      (∀ k ∈ schemaKeys t, lookupA k d = lookupA k d') →
      exceptOk (validateAndSanitize t d) = exceptOk (validateAndSanitize t d')) :=
  ⟨fun _ _ _ h => vas_ok_eq h, sanitizeMap_keys, fun _ => rfl,
    fun xs => ⟨rfl, sanitizeList_length xs⟩, fun _ => rfl, fun _ => rfl, fun _ => rfl, rfl,
    fun t _ _ h => vas_ok_congr t h⟩

/-- Claim C9 witness: a concrete successful `text` validation whose output
is the sanitized input map, and the schema-key congruence applied to two
maps differing only in the non-schema key "extra". -/
theorem sanitize_shape_preserving_c9_witness :
    (∃ out, validateAndSanitize "text"
        [("x", JValue.num 1), ("y", JValue.num 2),
         ("text", JValue.str "a<b>c</b>"), ("extra", JValue.str "z")] = .ok out ∧
      out = sanitizeMap
        [("x", JValue.num 1), ("y", JValue.num 2),
         ("text", JValue.str "a<b>c</b>"), ("extra", JValue.str "z")]) ∧
    exceptOk (validateAndSanitize "text"
        [("x", JValue.num 1), ("y", JValue.num 2),
         ("text", JValue.str "a<b>c</b>"), ("extra", JValue.str "z")])
      = exceptOk (validateAndSanitize "text"
        [("x", JValue.num 1), ("y", JValue.num 2),
         ("text", JValue.str "a<b>c</b>"), ("extra", JValue.num 7)]) := by
  constructor
  · exact ⟨_, rfl, sanitize_shape_preserving_c9.1 "text" _ _ rfl⟩
  · refine sanitize_shape_preserving_c9.2.2.2.2.2.2.2.2 "text" _ _ ?_
    intro k hk
    fin_cases hk <;> rfl

/-- Claim C10: `Room.RemoveConnection(userID)` removes only the connection
entry for that userID: it leaves `LastActive` unchanged (unlike `Leave`,
which sets it), and leaves the `Objects` map and the `UserColors` entries
untouched, as does `Leave`. -/
theorem remove_connection_frame_c10 :
    (∀ (r : RoomState) (uid : String),
      (removeConnection r uid).connections = eraseA uid r.connections ∧
      (removeConnection r uid).objects = r.objects ∧
      (removeConnection r uid).userColors = r.userColors ∧
      (removeConnection r uid).lastActive = r.lastActive ∧
      (removeConnection r uid).createdAt = r.createdAt ∧
      lookupA uid (removeConnection r uid).connections = none) ∧
    (∀ (r : RoomState) (uid k : String), k ≠ uid →
      lookupA k (removeConnection r uid).connections = lookupA k r.connections) ∧
    (∀ (r : RoomState) (uid : String) (now : Int),
      (roomLeave r uid now).lastActive = now ∧
      (roomLeave r uid now).connections = (removeConnection r uid).connections ∧
      (roomLeave r uid now).objects = r.objects ∧
      (roomLeave r uid now).userColors = r.userColors) :=
  ⟨fun r uid => ⟨rfl, rfl, rfl, rfl, rfl, lookupA_eraseA_self uid r.connections⟩,
   fun r _ _ hk => lookupA_eraseA_ne hk r.connections,
   fun _ _ _ => ⟨rfl, rfl, rfl, rfl⟩⟩

/-- Claim C10 witness: evicting "u1" from a concrete room keeps the other
user's connection entry. -/
theorem remove_connection_frame_c10_witness :
    lookupA "u2" (removeConnection
      ⟨[("u1", 1), ("u2", 2)], [], [("u1", "c1")], 1, 5, 3⟩ "u1").connections = some 2 := by
  rw [remove_connection_frame_c10.2.1
    ⟨[("u1", 1), ("u2", 2)], [], [("u1", "c1")], 1, 5, 3⟩ "u1" "u2" (by decide)]
  rfl

end Whiteboard
